import Mathlib

/-!
Verification development for the Pendulum-Animations repository.

The Python scripts are shallowly embedded: the floating-point arithmetic of
numpy is idealised as real arithmetic (`ℝ`), pixel coordinates are integers,
and the slider arithmetic of the interactive scripts (which only ever divides
and multiplies machine-representable constants) is idealised as rational
arithmetic (`ℚ`).  The external collaborators `scipy.integrate.solve_ivp`
(the ODE solver) is abstracted as a function parameter `sol` producing the
sampled angle trajectory; everything else is translated from the source.
-/

namespace Pendulum

/-- The gravity constant `g = 9.81` defined at module level in every script. -/
def g : ℝ := 9.81

namespace SimplePendulumScript

/-- Embedding of `SimplePendulum(t, y)` from `SimplePendulum.py` (lines 18-22):
`dz_dt = -(g/l) * np.sin(theta)`.  The module-level global `l` the function
reads is made an explicit parameter. -/
noncomputable def SimplePendulum (l : ℝ) (t : ℝ) (y : ℝ × ℝ) : ℝ × ℝ :=
  (y.2, -(g / l) * Real.sin y.1)

end SimplePendulumScript

namespace DampedPendulumScript

/-- Embedding of `DampedPemdulum(t, y)` from `DampedPendulum/DampedPendulum.py`
(lines 82-86): `dz_dt = -(b/(m * np.power(l, 2)))*z - (g/l)*np.sin(theta)`.
The module-level globals `m`, `l`, `b` are explicit parameters. -/
noncomputable def DampedPemdulum (m l b : ℝ) (t : ℝ) (y : ℝ × ℝ) : ℝ × ℝ :=
  (y.2, -(b / (m * l ^ 2)) * y.2 - (g / l) * Real.sin y.1)

end DampedPendulumScript

namespace DoublePendulumAnim

/-- The denominator computed on line 37 of `DoublePendulum/DoublePendulum.py`.
Note the source really computes `np.sqrt(l2)` (not `np.power(l2, 2)`):
`((m1 + m2) * np.power(l1, 2) * m2 * np.sqrt(l2)) - np.power(m2*l1*l2*np.cos(deltatheta), 2)`. -/
noncomputable def denominator (m1 m2 l1 l2 θ1 θ2 : ℝ) : ℝ :=
  (m1 + m2) * l1 ^ 2 * m2 * Real.sqrt l2 - (m2 * l1 * l2 * Real.cos (θ1 - θ2)) ^ 2

/-- Embedding of `DoubleDampedPendulum(t, y)` from
`DoublePendulum/DoublePendulum.py` (lines 31-47), with the module-level
globals `m1, m2, l1, l2, c1, c2` as explicit parameters. -/
noncomputable def DoubleDampedPendulum (m1 m2 l1 l2 c1 c2 : ℝ) (t : ℝ)
    (y : ℝ × ℝ × ℝ × ℝ) : ℝ × ℝ × ℝ × ℝ :=
  match y with
  | (theta1, z1, theta2, z2) =>
    let deltatheta := theta1 - theta2
    let denom := denominator m1 m2 l1 l2 theta1 theta2
    let dz1 := (m2 * l2 ^ 2 *
          (-m2 * l1 * l2 * z2 ^ 2 * Real.sin deltatheta
            - (m1 + m2) * g * l1 * Real.sin theta1 - c1 * z1)
        - (m2 * l1 * l2 * Real.cos deltatheta *
          (m2 * l1 * l2 * z1 ^ 2 * Real.sin deltatheta
            - m2 * g * l2 * Real.sin theta2 - c2 * z2))) / denom
    let dz2 := (-m2 * l1 * l2 * Real.cos deltatheta *
          (-m2 * l1 * l2 * z2 ^ 2 * Real.sin deltatheta
            - (m1 + m2) * g * l1 * Real.sin theta1 - c1 * z1)
        + ((m1 + m2) * l1 ^ 2) *
          (m2 * l1 * l2 * z1 ^ 2 * Real.sin deltatheta
            - m2 * g * l2 * Real.sin theta2 - c2 * z2)) / denom
    (z1, dz1, z2, dz2)

/-- The Cartesian transform of `DoublePendulum.py` lines 59-62
(downward-positive plot convention): `x1 = l1 sin θ1`, `y1 = -l1 cos θ1`,
`x2 = x1 + l2 sin θ2`, `y2 = y1 - l2 cos θ2`, applied to one sample. -/
noncomputable def animCartesian (l1 l2 θ1 θ2 : ℝ) : ℝ × ℝ × ℝ × ℝ :=
  (l1 * Real.sin θ1, -(l1 * Real.cos θ1),
    l1 * Real.sin θ1 + l2 * Real.sin θ2,
    -(l1 * Real.cos θ1) - l2 * Real.cos θ2)

end DoublePendulumAnim

namespace InteractiveDoublePendulum

/-- The denominator of `DoubleDampedPendulum` in
`DoublePendulum/InteractiveDoublePendulum.py` (line 39 of the script's
function):
`((m1 + m2) * np.power(l1, 2) * m2 * np.power(l2, 2)) - np.power(m2 * l1 * l2 * np.cos(deltatheta), 2)`. -/
noncomputable def denominator (m1 m2 l1 l2 θ1 θ2 : ℝ) : ℝ :=
  (m1 + m2) * l1 ^ 2 * m2 * l2 ^ 2 - (m2 * l1 * l2 * Real.cos (θ1 - θ2)) ^ 2

/-- Embedding of `DoubleDampedPendulum(t, y)` from
`DoublePendulum/InteractiveDoublePendulum.py`, the module-level globals as
explicit parameters. -/
noncomputable def DoubleDampedPendulum (m1 m2 l1 l2 c1 c2 : ℝ) (t : ℝ)
    (y : ℝ × ℝ × ℝ × ℝ) : ℝ × ℝ × ℝ × ℝ :=
  match y with
  | (theta1, z1, theta2, z2) =>
    let deltatheta := theta1 - theta2
    let denom := denominator m1 m2 l1 l2 theta1 theta2
    let dz1 := (m2 * l2 ^ 2 *
          (-m2 * l1 * l2 * z2 ^ 2 * Real.sin deltatheta
            - (m1 + m2) * g * l1 * Real.sin theta1 - c1 * z1)
        - (m2 * l1 * l2 * Real.cos deltatheta *
          (m2 * l1 * l2 * z1 ^ 2 * Real.sin deltatheta
            - m2 * g * l2 * Real.sin theta2 - c2 * z2))) / denom
    let dz2 := (-m2 * l1 * l2 * Real.cos deltatheta *
          (-m2 * l1 * l2 * z2 ^ 2 * Real.sin deltatheta
            - (m1 + m2) * g * l1 * Real.sin theta1 - c1 * z1)
        + ((m1 + m2) * l1 ^ 2) *
          (m2 * l1 * l2 * z1 ^ 2 * Real.sin deltatheta
            - m2 * g * l2 * Real.sin theta2 - c2 * z2)) / denom
    (z1, dz1, z2, dz2)

/-- The Cartesian transform of `InteractiveDoublePendulum.py` lines 153-156
(screen convention, y downward on screen so `+cos`): `x1 = l1 sin θ1`,
`y1 = l1 cos θ1`, `x2 = x1 + l2 sin θ2`, `y2 = y1 + l2 cos θ2`. -/
noncomputable def cartesian (l1 l2 θ1 θ2 : ℝ) : ℝ × ℝ × ℝ × ℝ :=
  (l1 * Real.sin θ1, l1 * Real.cos θ1,
    l1 * Real.sin θ1 + l2 * Real.sin θ2,
    l1 * Real.cos θ1 + l2 * Real.cos θ2)

end InteractiveDoublePendulum

namespace InteractiveSimplePendulum

/-- Embedding of `SimplePemdulum(t, y)` from `InteractiveSimplePendulum.py`
(lines 158-162): `dz_dt = -(b/(m * np.power(l, 2)))*z - (g/l)*np.sin(theta)`,
the module-level globals `m`, `l`, `b` as explicit parameters. -/
noncomputable def SimplePemdulum (m l b : ℝ) (t : ℝ) (y : ℝ × ℝ) : ℝ × ℝ :=
  (y.2, -(b / (m * l ^ 2)) * y.2 - (g / l) * Real.sin y.1)

end InteractiveSimplePendulum

/-- Model of `pygame.Rect` restricted to what the scripts use. -/
structure Rect where
  x : ℤ
  y : ℤ
  w : ℤ
  h : ℤ

/-- `pygame.Rect.collidepoint(pos)`: the point lies inside the rectangle
(right and bottom edges exclusive). -/
def Rect.collidepoint (r : Rect) (p : ℤ × ℤ) : Prop :=
  r.x ≤ p.1 ∧ p.1 < r.x + r.w ∧ r.y ≤ p.2 ∧ p.2 < r.y + r.h

instance (r : Rect) (p : ℤ × ℤ) : Decidable (r.collidepoint p) :=
  decidable_of_iff (r.x ≤ p.1 ∧ p.1 < r.x + r.w ∧ r.y ≤ p.2 ∧ p.2 < r.y + r.h) Iff.rfl

/-- `np.clip(v, lo, hi) = min(max(v, lo), hi)` on scalars. -/
def clip (v lo hi : ℚ) : ℚ := min (max v lo) hi

/-- Input events of the pygame loop, restricted to the handled kinds. -/
inductive Event
  | quit
  | mouseButtonDown (pos : ℤ × ℤ)
  | mouseButtonUp
  | mouseMotion (pos : ℤ × ℤ)

namespace InteractiveDoublePendulum

/-- The six module-level physical parameters of
`InteractiveDoublePendulum.py`, mutated by the slider handlers. -/
structure Params where
  m1 : ℚ
  m2 : ℚ
  l1 : ℚ
  l2 : ℚ
  c1 : ℚ
  c2 : ℚ
deriving DecidableEq

/-- The possible values of the `dragging` global other than `None`
(the strings naming the dragged slider). -/
inductive Dragged
  | m1
  | l1
  | c1
  | m2
  | l2
  | c2
deriving DecidableEq

/-- `slider_m1 = pygame.Rect(50, 650, 300, 20)`. -/
def slider_m1 : Rect := ⟨50, 650, 300, 20⟩

/-- `slider_l1 = pygame.Rect(50, 700, 300, 20)`. -/
def slider_l1 : Rect := ⟨50, 700, 300, 20⟩

/-- `slider_c1 = pygame.Rect(50, 750, 300, 20)`. -/
def slider_c1 : Rect := ⟨50, 750, 300, 20⟩

/-- `slider_m2 = pygame.Rect(450, 650, 300, 20)`. -/
def slider_m2 : Rect := ⟨450, 650, 300, 20⟩

/-- `slider_l2 = pygame.Rect(450, 700, 300, 20)`. -/
def slider_l2 : Rect := ⟨450, 700, 300, 20⟩

/-- `slider_c2 = pygame.Rect(450, 750, 300, 20)`. -/
def slider_c2 : Rect := ⟨450, 750, 300, 20⟩

/-- `len(t_eval)` for `t_eval = np.linspace(0, 100, 1000)`. -/
def tEvalLen : ℕ := 1000

/-- The mutable module-level state of `InteractiveDoublePendulum.py` that the
main loop reads and writes: the parameters, the `dragging` global, the
Cartesian trajectory arrays `(x1, y1, x2, y2)`, the playback `frame` index
and the `running` flag. -/
structure Session where
  params : Params
  dragging : Option Dragged
  traj : List (ℝ × ℝ × ℝ × ℝ)
  frame : ℕ
  running : Bool

section

variable (sol : Params → List (ℝ × ℝ))

/-- `update_simulation()` (lines 191-200): re-solves the ODE with the current
parameters (`sol` abstracts `solve_ivp` returning the sampled `(θ1, θ2)`
pairs), recomputes the Cartesian arrays with the current lengths, and resets
`frame` to 0. -/
noncomputable def update_simulation (s : Session) : Session :=
  { s with
    traj := (sol s.params).map fun p =>
      cartesian (s.params.l1 : ℝ) (s.params.l2 : ℝ) p.1 p.2
    frame := 0 }

/-- The event dispatch of the main loop (lines 205-241): `QUIT` clears
`running`; `MOUSEBUTTONDOWN` sets `dragging` by hit-testing the six sliders;
`MOUSEBUTTONUP` clears `dragging` and calls `update_simulation()`;
`MOUSEMOTION` while dragging clips the mapped slider value into the dragged
parameter.  The second component counts the `solve_ivp` calls the event
caused. -/
noncomputable def handleEvent (s : Session) (e : Event) : Session × ℕ :=
  match e with
  | Event.quit => ({ s with running := false }, 0)
  | Event.mouseButtonDown p =>
    if slider_m1.collidepoint p then ({ s with dragging := some Dragged.m1 }, 0)
    else if slider_l1.collidepoint p then ({ s with dragging := some Dragged.l1 }, 0)
    else if slider_c1.collidepoint p then ({ s with dragging := some Dragged.c1 }, 0)
    else if slider_m2.collidepoint p then ({ s with dragging := some Dragged.m2 }, 0)
    else if slider_l2.collidepoint p then ({ s with dragging := some Dragged.l2 }, 0)
    else if slider_c2.collidepoint p then ({ s with dragging := some Dragged.c2 }, 0)
    else (s, 0)
  | Event.mouseButtonUp =>
    (update_simulation sol { s with dragging := none }, 1)
  | Event.mouseMotion p =>
    match s.dragging with
    | none => (s, 0)
    | some Dragged.m1 =>
      ({ s with params := { s.params with
          m1 := clip (((p.1 : ℚ) - (slider_m1.x : ℚ)) / (slider_m1.w : ℚ) * 5) 0.01 10 } }, 0)
    | some Dragged.l1 =>
      ({ s with params := { s.params with
          l1 := clip (((p.1 : ℚ) - (slider_l1.x : ℚ)) / (slider_l1.w : ℚ) * 5) 0.01 10 } }, 0)
    | some Dragged.c1 =>
      ({ s with params := { s.params with
          c1 := clip (((p.1 : ℚ) - (slider_c1.x : ℚ)) / (slider_c1.w : ℚ) * 1) 0 1 } }, 0)
    | some Dragged.m2 =>
      ({ s with params := { s.params with
          m2 := clip (((p.1 : ℚ) - (slider_m2.x : ℚ)) / (slider_m2.w : ℚ) * 5) 0.01 10 } }, 0)
    | some Dragged.l2 =>
      ({ s with params := { s.params with
          l2 := clip (((p.1 : ℚ) - (slider_l2.x : ℚ)) / (slider_l2.w : ℚ) * 5) 0.01 10 } }, 0)
    | some Dragged.c2 =>
      ({ s with params := { s.params with
          c2 := clip (((p.1 : ℚ) - (slider_c2.x : ℚ)) / (slider_c2.w : ℚ) * 1) 0 1 } }, 0)

/-- Processing of one tick's event list, accumulating the solve count. -/
noncomputable def processEvents : Session → List Event → Session × ℕ
  | s, [] => (s, 0)
  | s, e :: evs =>
    let r := handleEvent sol s e
    let r2 := processEvents r.1 evs
    (r2.1, r.2 + r2.2)

end

/-- The per-tick frame advance (lines 247-254): the pendulum is drawn and
`frame` incremented only when `frame < len(t_eval)`; this runs on every loop
iteration, whether or not a drag is in progress. -/
def tick (s : Session) : Session :=
  if s.frame < tEvalLen then { s with frame := s.frame + 1 } else s

section

variable (sol : Params → List (ℝ × ℝ))

/-- One iteration of the main `while running` loop: process the pending
events, then draw and advance the frame. -/
noncomputable def loopStep (s : Session) (evs : List Event) : Session × ℕ :=
  let r := processEvents sol s evs
  (tick r.1, r.2)

/-- The module-level startup state: parameters all at their initial values
(`m1 = m2 = l1 = l2 = 1`, `c1 = c2 = 0`), `dragging = None`, the trajectory
solved once at import time, `frame = 0`, `running = True`. -/
noncomputable def initSession : Session :=
  { params := ⟨1, 1, 1, 1, 0, 0⟩
    dragging := none
    traj := (sol ⟨1, 1, 1, 1, 0, 0⟩).map fun p => cartesian 1 1 p.1 p.2
    frame := 0
    running := true }

/-- The states the main loop can reach from startup. -/
inductive Reachable : Session → Prop
  | init : Reachable (initSession sol)
  | step (s : Session) (evs : List Event) :
      Reachable s → Reachable (loopStep sol s evs).1

end

/-- The configured clamp ranges of the six sliders. -/
def InRange (p : Params) : Prop :=
  0.01 ≤ p.m1 ∧ p.m1 ≤ 10 ∧ 0.01 ≤ p.m2 ∧ p.m2 ≤ 10
  ∧ 0.01 ≤ p.l1 ∧ p.l1 ≤ 10 ∧ 0.01 ≤ p.l2 ∧ p.l2 ≤ 10
  ∧ 0 ≤ p.c1 ∧ p.c1 ≤ 1 ∧ 0 ≤ p.c2 ∧ p.c2 ≤ 1

/-- A trivial stand-in for the external ODE solver, used to state closed
concrete scenarios. -/
def solNil : Params → List (ℝ × ℝ) := fun _ => []

/-- A session in the middle of a drag of the `l1` slider, with the startup
parameter values. -/
def dragL1Session : Session :=
  { params := ⟨1, 1, 1, 1, 0, 0⟩
    dragging := some Dragged.l1
    traj := []
    frame := 0
    running := true }

/-- A session in the middle of a drag of the `m1` slider at frame 0. -/
def dragM1Session : Session :=
  { params := ⟨1, 1, 1, 1, 0, 0⟩
    dragging := some Dragged.m1
    traj := []
    frame := 0
    running := true }

/-- An idle session paused at the penultimate frame index 999. -/
def idleLateSession : Session :=
  { params := ⟨1, 1, 1, 1, 0, 0⟩
    dragging := none
    traj := []
    frame := 999
    running := true }

/-- A session in the middle of a drag of the `m2` slider, used as the
concrete release scenario. -/
def dragM2Session : Session :=
  { params := ⟨1, 1, 1, 1, 0, 0⟩
    dragging := some Dragged.m2
    traj := []
    frame := 123
    running := true }

/-- What a motion event while dragging `l1` does, per the code: the value is
clipped into `[0.01, 10]`, hence positive; stated as a predicate for claim
C3. -/
noncomputable def L1DragClamped (sol : Params → List (ℝ × ℝ))
    (s : Session) (p : ℤ × ℤ) : Prop :=
  (handleEvent sol s (Event.mouseMotion p)).1.params.l1
      = clip (((p.1 : ℚ) - (slider_l1.x : ℚ)) / (slider_l1.w : ℚ) * 5) 0.01 10
  ∧ 0.01 ≤ (handleEvent sol s (Event.mouseMotion p)).1.params.l1
  ∧ 0 < (handleEvent sol s (Event.mouseMotion p)).1.params.l1
  ∧ (handleEvent sol s (Event.mouseMotion p)).2 = 0

/-- What a pointer-up does, per the code: exactly one solve, with the
parameters held at release time, Cartesian arrays recomputed from its output
with the released lengths, frame index reset to 0; predicate for claim C6. -/
noncomputable def ResolveOnRelease (sol : Params → List (ℝ × ℝ))
    (s : Session) : Prop :=
  handleEvent sol s Event.mouseButtonUp
      = (update_simulation sol { s with dragging := none }, 1)
  ∧ (handleEvent sol s Event.mouseButtonUp).2 = 1
  ∧ (handleEvent sol s Event.mouseButtonUp).1.params = s.params
  ∧ (handleEvent sol s Event.mouseButtonUp).1.traj
      = (sol s.params).map (fun p =>
          cartesian (s.params.l1 : ℝ) (s.params.l2 : ℝ) p.1 p.2)
  ∧ (handleEvent sol s Event.mouseButtonUp).1.frame = 0
  ∧ (handleEvent sol s Event.mouseButtonUp).1.dragging = none

end InteractiveDoublePendulum

namespace InteractiveSimplePendulum

/-- The three module-level physical parameters of
`InteractiveSimplePendulum.py`. -/
structure SParams where
  m : ℚ
  l : ℚ
  b : ℚ
deriving DecidableEq

/-- The possible values of the `dragging` global other than `None`. -/
inductive SDragged
  | m
  | l
  | b
deriving DecidableEq

/-- `slider_m = pygame.Rect(50, 650, 300, 20)`. -/
def slider_m : Rect := ⟨50, 650, 300, 20⟩

/-- `slider_l = pygame.Rect(50, 700, 300, 20)`. -/
def slider_l : Rect := ⟨50, 700, 300, 20⟩

/-- `slider_b = pygame.Rect(50, 750, 300, 20)`. -/
def slider_b : Rect := ⟨50, 750, 300, 20⟩

/-- `len(t_eval)` for `t_eval = np.linspace(0, 50, 500)`. -/
def tEvalLen : ℕ := 500

/-- The mutable module-level state of `InteractiveSimplePendulum.py`.  The
field `c` models the stray global that line 235 of the script creates when
the damping slider is dragged (`c = np.clip(...)`); nothing ever reads it. -/
structure Session where
  params : SParams
  c : Option ℚ
  dragging : Option SDragged
  traj : List (ℝ × ℝ)
  frame : ℕ
  running : Bool

/-- Per-sample Cartesian transform of the simple interactive script
(lines 173-174 and 205-206): `x1 = l sin θ`, `y1 = l cos θ`. -/
noncomputable def cartesian1 (l θ : ℝ) : ℝ × ℝ := (l * Real.sin θ, l * Real.cos θ)

section

variable (sol : SParams → List ℝ)

/-- `update_simulation()` (lines 201-207): re-solve with the current
parameters, recompute `x1`, `y1` with the current length, reset `frame`. -/
noncomputable def update_simulation (s : Session) : Session :=
  { s with
    traj := (sol s.params).map fun θ => cartesian1 (s.params.l : ℝ) θ
    frame := 0 }

/-- Event dispatch of the main loop (lines 212-235).  Note the `MOUSEMOTION`
branch for the damping slider: the source assigns the clipped value to the
otherwise-unused global `c`, not to the parameter `b`. -/
noncomputable def handleEvent (s : Session) (e : Event) : Session × ℕ :=
  match e with
  | Event.quit => ({ s with running := false }, 0)
  | Event.mouseButtonDown p =>
    if slider_m.collidepoint p then ({ s with dragging := some SDragged.m }, 0)
    else if slider_l.collidepoint p then ({ s with dragging := some SDragged.l }, 0)
    else if slider_b.collidepoint p then ({ s with dragging := some SDragged.b }, 0)
    else (s, 0)
  | Event.mouseButtonUp =>
    (update_simulation sol { s with dragging := none }, 1)
  | Event.mouseMotion p =>
    match s.dragging with
    | none => (s, 0)
    | some SDragged.m =>
      ({ s with params := { s.params with
          m := clip (((p.1 : ℚ) - (slider_m.x : ℚ)) / (slider_m.w : ℚ) * 10) 0.01 10 } }, 0)
    | some SDragged.l =>
      ({ s with params := { s.params with
          l := clip (((p.1 : ℚ) - (slider_l.x : ℚ)) / (slider_l.w : ℚ) * 10) 0.01 10 } }, 0)
    | some SDragged.b =>
      ({ s with
          c := some (clip (((p.1 : ℚ) - (slider_b.x : ℚ)) / (slider_b.w : ℚ) * 1) 0 1) }, 0)

end

/-- The per-tick frame advance (lines 239-243), identical in shape to the
double-pendulum script with `len(t_eval) = 500`. -/
def tick (s : Session) : Session :=
  if s.frame < tEvalLen then { s with frame := s.frame + 1 } else s

/-- A trivial stand-in for the external ODE solver. -/
def solNil : SParams → List ℝ := fun _ => []

/-- A session in the middle of a drag of the damping slider, at the startup
parameter values (`m = 1`, `l = 1`, `b = 0`). -/
def dragBSession : Session :=
  { params := ⟨1, 1, 0⟩
    c := none
    dragging := some SDragged.b
    traj := []
    frame := 7
    running := true }

end InteractiveSimplePendulum

/-- The spec's determinant formula, stated for comparison with the code:
`D = (m1+m2)·l1²·m2·l2² − (m2·l1·l2·cos(Δθ))²`. -/
noncomputable def specD (m1 m2 l1 l2 θ1 θ2 : ℝ) : ℝ :=
  (m1 + m2) * l1 ^ 2 * (m2 * l2 ^ 2) - (m2 * l1 * l2 * Real.cos (θ1 - θ2)) ^ 2

/-- The spec's generalized torque term
`A = −m2·l1·l2·ω2²·sin(Δθ) − (m1+m2)·g·l1·sin(θ1) − c1·ω1`, for comparison. -/
noncomputable def specA (m1 m2 l1 l2 c1 θ1 ω1 θ2 ω2 : ℝ) : ℝ :=
  -(m2 * l1 * l2 * ω2 ^ 2 * Real.sin (θ1 - θ2))
    - (m1 + m2) * g * l1 * Real.sin θ1 - c1 * ω1

/-- The spec's generalized torque term
`B = m2·l1·l2·ω1²·sin(Δθ) − m2·g·l2·sin(θ2) − c2·ω2`, for comparison. -/
noncomputable def specB (m2 l1 l2 c2 θ1 ω1 θ2 ω2 : ℝ) : ℝ :=
  m2 * l1 * l2 * ω1 ^ 2 * Real.sin (θ1 - θ2)
    - m2 * g * l2 * Real.sin θ2 - c2 * ω2

/-- The spec's first angular acceleration
`α1 = (m2·l2²·A − m2·l1·l2·cos(Δθ)·B) / D`, for comparison with the code. -/
noncomputable def specAlpha1 (m1 m2 l1 l2 c1 c2 θ1 ω1 θ2 ω2 : ℝ) : ℝ :=
  (m2 * l2 ^ 2 * specA m1 m2 l1 l2 c1 θ1 ω1 θ2 ω2
    - m2 * l1 * l2 * Real.cos (θ1 - θ2) * specB m2 l1 l2 c2 θ1 ω1 θ2 ω2)
    / specD m1 m2 l1 l2 θ1 θ2

/-- The spec's second angular acceleration
`α2 = (−m2·l1·l2·cos(Δθ)·A + (m1+m2)·l1²·B) / D`, for comparison. -/
noncomputable def specAlpha2 (m1 m2 l1 l2 c1 c2 θ1 ω1 θ2 ω2 : ℝ) : ℝ :=
  (-(m2 * l1 * l2 * Real.cos (θ1 - θ2)) * specA m1 m2 l1 l2 c1 θ1 ω1 θ2 ω2
    + (m1 + m2) * l1 ^ 2 * specB m2 l1 l2 c2 θ1 ω1 θ2 ω2)
    / specD m1 m2 l1 l2 θ1 θ2

/-- The single-pendulum derivative form asserted by the spec, instantiated at
each of the three single-pendulum derivative functions
(`α = −(c/(m·l²))·ω − (g/l)·sin θ`, with `c = 0` for the undamped script). -/
noncomputable def SingleForm (m l c t θ ω : ℝ) : Prop :=
  SimplePendulumScript.SimplePendulum l t (θ, ω)
      = (ω, -(0 / (m * l ^ 2)) * ω - (g / l) * Real.sin θ)
  ∧ DampedPendulumScript.DampedPemdulum m l c t (θ, ω)
      = (ω, -(c / (m * l ^ 2)) * ω - (g / l) * Real.sin θ)
  ∧ InteractiveSimplePendulum.SimplePemdulum m l c t (θ, ω)
      = (ω, -(c / (m * l ^ 2)) * ω - (g / l) * Real.sin θ)

/-- The factored form of the interactive script's denominator together with
its positivity and nonvanishing, used to state claim C9. -/
noncomputable def DenomFactored (m1 m2 l1 l2 θ1 θ2 : ℝ) : Prop :=
  InteractiveDoublePendulum.denominator m1 m2 l1 l2 θ1 θ2
      = m2 * l1 ^ 2 * l2 ^ 2 * (m1 + m2 * Real.sin (θ1 - θ2) ^ 2)
  ∧ 0 < InteractiveDoublePendulum.denominator m1 m2 l1 l2 θ1 θ2
  ∧ InteractiveDoublePendulum.denominator m1 m2 l1 l2 θ1 θ2 ≠ 0

/-- The two-argument arctangent `atan2(y, x)`, realised as the argument of
the complex number `x + y·i`. -/
noncomputable def atan2 (y x : ℝ) : ℝ := Complex.arg (x + y * Complex.I)

/-- Angle recovery for the interactive (upward-cos) convention: `atan2` on
each relative segment vector of the produced frame returns the original
angles as elements of `Real.Angle` (that is, modulo 2π). -/
noncomputable def RoundTripUp (l1 l2 θ1 θ2 : ℝ) : Prop :=
  ((atan2 (InteractiveDoublePendulum.cartesian l1 l2 θ1 θ2).1
      (InteractiveDoublePendulum.cartesian l1 l2 θ1 θ2).2.1 : ℝ) : Real.Angle)
    = (θ1 : Real.Angle)
  ∧ ((atan2 ((InteractiveDoublePendulum.cartesian l1 l2 θ1 θ2).2.2.1
        - (InteractiveDoublePendulum.cartesian l1 l2 θ1 θ2).1)
      ((InteractiveDoublePendulum.cartesian l1 l2 θ1 θ2).2.2.2
        - (InteractiveDoublePendulum.cartesian l1 l2 θ1 θ2).2.1) : ℝ) : Real.Angle)
    = (θ2 : Real.Angle)

/-- Angle recovery for the plotting (downward-cos) convention of the
animation script: the vertical components are negated before `atan2`. -/
noncomputable def RoundTripDown (l1 l2 θ1 θ2 : ℝ) : Prop :=
  ((atan2 (DoublePendulumAnim.animCartesian l1 l2 θ1 θ2).1
      (-(DoublePendulumAnim.animCartesian l1 l2 θ1 θ2).2.1) : ℝ) : Real.Angle)
    = (θ1 : Real.Angle)
  ∧ ((atan2 ((DoublePendulumAnim.animCartesian l1 l2 θ1 θ2).2.2.1
        - (DoublePendulumAnim.animCartesian l1 l2 θ1 θ2).1)
      (-((DoublePendulumAnim.animCartesian l1 l2 θ1 θ2).2.2.2
        - (DoublePendulumAnim.animCartesian l1 l2 θ1 θ2).2.1)) : ℝ) : Real.Angle)
    = (θ2 : Real.Angle)

/-- The full coordinate-mapper property of claim C7: the produced frames
follow the claimed bob-position pattern (pivot at the origin) in both sign
conventions, and `atan2` on the relative segment vectors recovers the
original angles modulo 2π. -/
noncomputable def MapperSpec (l1 l2 θ1 θ2 : ℝ) : Prop :=
  InteractiveDoublePendulum.cartesian l1 l2 θ1 θ2
      = (l1 * Real.sin θ1, l1 * Real.cos θ1,
          l1 * Real.sin θ1 + l2 * Real.sin θ2,
          l1 * Real.cos θ1 + l2 * Real.cos θ2)
  ∧ DoublePendulumAnim.animCartesian l1 l2 θ1 θ2
      = (l1 * Real.sin θ1, -(l1 * Real.cos θ1),
          l1 * Real.sin θ1 + l2 * Real.sin θ2,
          -(l1 * Real.cos θ1) - l2 * Real.cos θ2)
  ∧ RoundTripUp l1 l2 θ1 θ2
  ∧ RoundTripDown l1 l2 θ1 θ2

theorem sqrt_four : Real.sqrt 4 = 2 := by
  rw [show (4 : ℝ) = 2 ^ 2 by norm_num, Real.sqrt_sq (by norm_num : (0 : ℝ) ≤ 2)]

theorem clip_mem (v lo hi : ℚ) (h : lo ≤ hi) : lo ≤ clip v lo hi ∧ clip v lo hi ≤ hi :=
  ⟨le_min (le_max_right v lo) h, min_le_right _ _⟩

theorem atan2_recover (l θ : ℝ) (hl : 0 < l) :
    ((atan2 (l * Real.sin θ) (l * Real.cos θ) : ℝ) : Real.Angle) = (θ : Real.Angle) := by
  have h := Complex.arg_mul_cos_add_sin_mul_I_coe_angle hl (θ : Real.Angle)
  rw [Real.Angle.cos_coe, Real.Angle.sin_coe] at h
  have e : ((l * Real.cos θ : ℝ) : ℂ) + ((l * Real.sin θ : ℝ) : ℂ) * Complex.I
      = (l : ℂ) * ((Real.cos θ : ℂ) + (Real.sin θ : ℂ) * Complex.I) := by
    push_cast
    ring
  unfold atan2
  rw [e]
  exact h

namespace InteractiveDoublePendulum

theorem inRange_handleEvent (sol : Params → List (ℝ × ℝ)) (s : Session) (e : Event)
    (h : InRange s.params) : InRange (handleEvent sol s e).1.params := by
  cases e with
  | quit => exact h
  | mouseButtonDown p =>
    simp only [handleEvent]
    split_ifs <;> exact h
  | mouseButtonUp => exact h
  | mouseMotion p =>
    obtain ⟨a1, a2, a3, a4, a5, a6, a7, a8, a9, a10, a11, a12⟩ := h
    rcases hd : s.dragging with _ | d
    · simp only [handleEvent, hd]
      exact ⟨a1, a2, a3, a4, a5, a6, a7, a8, a9, a10, a11, a12⟩
    · cases d with
      | m1 =>
        have hb := clip_mem (((p.1 : ℚ) - (slider_m1.x : ℚ)) / (slider_m1.w : ℚ) * 5)
          0.01 10 (by norm_num)
        simp only [handleEvent, hd]
        exact ⟨hb.1, hb.2, a3, a4, a5, a6, a7, a8, a9, a10, a11, a12⟩
      | l1 =>
        have hb := clip_mem (((p.1 : ℚ) - (slider_l1.x : ℚ)) / (slider_l1.w : ℚ) * 5)
          0.01 10 (by norm_num)
        simp only [handleEvent, hd]
        exact ⟨a1, a2, a3, a4, hb.1, hb.2, a7, a8, a9, a10, a11, a12⟩
      | c1 =>
        have hb := clip_mem (((p.1 : ℚ) - (slider_c1.x : ℚ)) / (slider_c1.w : ℚ) * 1)
          0 1 (by norm_num)
        simp only [handleEvent, hd]
        exact ⟨a1, a2, a3, a4, a5, a6, a7, a8, hb.1, hb.2, a11, a12⟩
      | m2 =>
        have hb := clip_mem (((p.1 : ℚ) - (slider_m2.x : ℚ)) / (slider_m2.w : ℚ) * 5)
          0.01 10 (by norm_num)
        simp only [handleEvent, hd]
        exact ⟨a1, a2, hb.1, hb.2, a5, a6, a7, a8, a9, a10, a11, a12⟩
      | l2 =>
        have hb := clip_mem (((p.1 : ℚ) - (slider_l2.x : ℚ)) / (slider_l2.w : ℚ) * 5)
          0.01 10 (by norm_num)
        simp only [handleEvent, hd]
        exact ⟨a1, a2, a3, a4, a5, a6, hb.1, hb.2, a9, a10, a11, a12⟩
      | c2 =>
        have hb := clip_mem (((p.1 : ℚ) - (slider_c2.x : ℚ)) / (slider_c2.w : ℚ) * 1)
          0 1 (by norm_num)
        simp only [handleEvent, hd]
        exact ⟨a1, a2, a3, a4, a5, a6, a7, a8, a9, a10, hb.1, hb.2⟩

theorem inRange_processEvents (sol : Params → List (ℝ × ℝ)) (evs : List Event) :
    ∀ s : Session, InRange s.params → InRange (processEvents sol s evs).1.params := by
  induction evs with
  | nil => intro s h; exact h
  | cons e evs ih => intro s h; exact ih _ (inRange_handleEvent sol s e h)

theorem tick_params (s : Session) : (tick s).params = s.params := by
  unfold tick
  split <;> rfl

theorem reachable_inRange (sol : Params → List (ℝ × ℝ)) (s : Session)
    (h : Reachable sol s) : InRange s.params := by
  induction h with
  | init => exact (by norm_num [initSession, InRange])
  | step s' evs hr ih =>
    show InRange (tick (processEvents sol s' evs).1).params
    rw [tick_params]
    exact inRange_processEvents sol evs s' ih

end InteractiveDoublePendulum

/-- C1: the claim says both scripts compute the denominator
`(m1+m2)·l1²·m2·l2² − (m2·l1·l2·cos(θ1−θ2))²`.  The interactive script does,
for every state and parameters; but the animation script computes `√l2` in
place of `l2²` (against its own docstring), so at `m1 = m2 = l1 = 1`,
`l2 = 4`, `θ1 = θ2 = 0` it yields `−12` where the claimed determinant is
`16`. -/
theorem C1_denominator :
    (∀ m1 m2 l1 l2 θ1 θ2 : ℝ,
      InteractiveDoublePendulum.denominator m1 m2 l1 l2 θ1 θ2 = specD m1 m2 l1 l2 θ1 θ2)
    ∧ DoublePendulumAnim.denominator 1 1 1 4 0 0 = -12
    ∧ specD 1 1 1 4 0 0 = 16 := by
  refine ⟨?_, ?_, ?_⟩
  · intro m1 m2 l1 l2 θ1 θ2
    unfold InteractiveDoublePendulum.denominator specD
    ring
  · unfold DoublePendulumAnim.denominator
    rw [sqrt_four]
    norm_num
  · unfold specD
    norm_num

/-- C2: the claim says both derivative functions return
`(ω1, α1, ω2, α2)` with the spec's `A`, `B`, `D` formulas.  The interactive
script does, for every state and parameters; but the animation script
divides by its deviant denominator, so at `m1 = m2 = l1 = 1`, `l2 = 4`,
`c1 = 1`, `c2 = 0`, state `(0, 1, 0, 0)` its `α1` is `4/3` where the claimed
`α1` is `−1`. -/
theorem C2_derivative :
    (∀ m1 m2 l1 l2 c1 c2 t θ1 ω1 θ2 ω2 : ℝ,
      InteractiveDoublePendulum.DoubleDampedPendulum m1 m2 l1 l2 c1 c2 t (θ1, ω1, θ2, ω2)
        = (ω1, specAlpha1 m1 m2 l1 l2 c1 c2 θ1 ω1 θ2 ω2,
            ω2, specAlpha2 m1 m2 l1 l2 c1 c2 θ1 ω1 θ2 ω2))
    ∧ (DoublePendulumAnim.DoubleDampedPendulum 1 1 1 4 1 0 0 (0, 1, 0, 0)).2.1 = 4 / 3
    ∧ specAlpha1 1 1 1 4 1 0 0 1 0 0 = -1 := by
  refine ⟨?_, ?_, ?_⟩
  · intro m1 m2 l1 l2 c1 c2 t θ1 ω1 θ2 ω2
    simp only [InteractiveDoublePendulum.DoubleDampedPendulum,
      InteractiveDoublePendulum.denominator, specAlpha1, specAlpha2, specA, specB, specD,
      Prod.mk.injEq]
    refine ⟨trivial, ?_, trivial, ?_⟩ <;> ring
  · simp only [DoublePendulumAnim.DoubleDampedPendulum, DoublePendulumAnim.denominator]
    rw [sqrt_four]
    norm_num
  · unfold specAlpha1 specA specB specD
    norm_num

/-- C3 counterexample: the claim says setting `l1 = 0` is rejected with
`InvalidParameter`, leaving the prior valid `l1` unchanged.  In the code a
drag of the `l1` slider whose mapped value is `0` simply clamps it to the
slider minimum `0.01`: the prior value `1` is changed, and no failure
occurs. -/
theorem C3_counterexample :
    InteractiveDoublePendulum.dragL1Session.params.l1 = 1
    ∧ (InteractiveDoublePendulum.handleEvent InteractiveDoublePendulum.solNil
        InteractiveDoublePendulum.dragL1Session (Event.mouseMotion (50, 700))).1.params.l1
      = 0.01
    ∧ (0.01 : ℚ) ≠ 1 := by
  refine ⟨rfl, ?_, by norm_num⟩
  simp only [InteractiveDoublePendulum.handleEvent, InteractiveDoublePendulum.dragL1Session]
  norm_num [clip, InteractiveDoublePendulum.slider_l1, max_def, min_def]

/-- C3 amended: there is no `InvalidParameter` mechanism; instead every
motion while dragging `l1` clamps the mapped value into `[0.01, 10]` (so a
drag to `0` produces `0.01`, a changed but positive value, with no solve
triggered), and every reachable session keeps all parameters inside the
configured clamp ranges, so nonpositive masses or lengths never reach the
solver. -/
theorem C3_amended_clamping : ∀ sol : InteractiveDoublePendulum.Params → List (ℝ × ℝ),
    (∀ (s : InteractiveDoublePendulum.Session) (p : ℤ × ℤ),
      s.dragging = some InteractiveDoublePendulum.Dragged.l1 →
      InteractiveDoublePendulum.L1DragClamped sol s p)
    ∧ ∀ s : InteractiveDoublePendulum.Session,
      InteractiveDoublePendulum.Reachable sol s → InteractiveDoublePendulum.InRange s.params := by
  intro sol
  constructor
  · intro s p hd
    unfold InteractiveDoublePendulum.L1DragClamped
    simp only [InteractiveDoublePendulum.handleEvent, hd]
    have hb := clip_mem (((p.1 : ℚ) - (InteractiveDoublePendulum.slider_l1.x : ℚ))
        / (InteractiveDoublePendulum.slider_l1.w : ℚ) * 5) 0.01 10 (by norm_num)
    exact ⟨trivial, hb.1, lt_of_lt_of_le (by norm_num) hb.1, trivial⟩
  · exact fun s h => InteractiveDoublePendulum.reachable_inRange sol s h

/-- Witness for C3's amended theorem: the concrete drag-to-zero scenario. -/
theorem C3_amended_witness :
    InteractiveDoublePendulum.dragL1Session.dragging
      = some InteractiveDoublePendulum.Dragged.l1
    ∧ InteractiveDoublePendulum.L1DragClamped InteractiveDoublePendulum.solNil
        InteractiveDoublePendulum.dragL1Session (50, 700) :=
  ⟨rfl, (C3_amended_clamping InteractiveDoublePendulum.solNil).1
      InteractiveDoublePendulum.dragL1Session (50, 700) rfl⟩

/-- C4: the claim says every pointer-move during a drag updates exactly the
dragged parameter to the clamped mapped value.  In
`InteractiveSimplePendulum.py` a drag of the damping slider assigns the
clamped value to the unused global `c` instead of the parameter `b`: with
`b = 0` and the mouse at `x = 200` (mapped value `1/2`) all parameters are
unchanged and the dead variable receives `1/2`. -/
theorem C4_damping_drag_dead_variable :
    InteractiveSimplePendulum.dragBSession.params.b = 0
    ∧ (InteractiveSimplePendulum.handleEvent InteractiveSimplePendulum.solNil
        InteractiveSimplePendulum.dragBSession (Event.mouseMotion (200, 760))).1.params
      = InteractiveSimplePendulum.dragBSession.params
    ∧ (InteractiveSimplePendulum.handleEvent InteractiveSimplePendulum.solNil
        InteractiveSimplePendulum.dragBSession (Event.mouseMotion (200, 760))).1.c
      = some (1 / 2)
    ∧ clip (((200 : ℚ) - 50) / 300 * 1) 0 1 = 1 / 2 := by
  refine ⟨rfl, ?_, ?_, ?_⟩
  · simp only [InteractiveSimplePendulum.handleEvent, InteractiveSimplePendulum.dragBSession]
  · simp only [InteractiveSimplePendulum.handleEvent, InteractiveSimplePendulum.dragBSession]
    norm_num [clip, InteractiveSimplePendulum.slider_b, max_def, min_def]
  · norm_num [clip, max_def, min_def]

/-- C5 counterexample: the claim says the frame index is frozen while
Dragging and holds at trajectory length − 1.  In the code the tick advances
the frame even while a drag is in progress (from 0 to 1 here), and from
index 999 = len(t_eval) − 1 a tick still advances to 1000 = len(t_eval). -/
theorem C5_counterexample :
    InteractiveDoublePendulum.dragM1Session.dragging
      = some InteractiveDoublePendulum.Dragged.m1
    ∧ InteractiveDoublePendulum.dragM1Session.frame = 0
    ∧ (InteractiveDoublePendulum.tick InteractiveDoublePendulum.dragM1Session).frame = 1
    ∧ InteractiveDoublePendulum.idleLateSession.dragging = none
    ∧ InteractiveDoublePendulum.idleLateSession.frame
      = InteractiveDoublePendulum.tEvalLen - 1
    ∧ (InteractiveDoublePendulum.tick InteractiveDoublePendulum.idleLateSession).frame
      = InteractiveDoublePendulum.tEvalLen := by
  refine ⟨rfl, rfl, ?_, rfl, rfl, ?_⟩ <;>
    simp [InteractiveDoublePendulum.tick, InteractiveDoublePendulum.dragM1Session,
      InteractiveDoublePendulum.idleLateSession, InteractiveDoublePendulum.tEvalLen]

/-- C5 amended: on every tick, in Idle and Dragging states alike, the frame
index advances by 1 while it is below `len(t_eval)` and then holds at
`len(t_eval)` (no looping); nothing else in the session changes on a tick.
This holds for both interactive scripts. -/
theorem C5_amended_tick :
    (∀ s : InteractiveDoublePendulum.Session,
      InteractiveDoublePendulum.tick s
        = { s with frame :=
            if s.frame < InteractiveDoublePendulum.tEvalLen then s.frame + 1 else s.frame })
    ∧ ∀ s : InteractiveSimplePendulum.Session,
      InteractiveSimplePendulum.tick s
        = { s with frame :=
            if s.frame < InteractiveSimplePendulum.tEvalLen then s.frame + 1 else s.frame } := by
  constructor
  · intro s
    by_cases h : s.frame < InteractiveDoublePendulum.tEvalLen <;>
      simp [InteractiveDoublePendulum.tick, h]
  · intro s
    by_cases h : s.frame < InteractiveSimplePendulum.tEvalLen <;>
      simp [InteractiveSimplePendulum.tick, h]

/-- C6: every pointer-up that ends a slider drag performs exactly one solve,
with the parameter values as of the release; the trajectory is recomputed
from that solve with the released lengths and the frame index is reset to
0. -/
theorem C6_release_single_resolve :
    ∀ (sol : InteractiveDoublePendulum.Params → List (ℝ × ℝ))
      (s : InteractiveDoublePendulum.Session) (d : InteractiveDoublePendulum.Dragged),
      s.dragging = some d → InteractiveDoublePendulum.ResolveOnRelease sol s := by
  intro sol s d _hd
  exact ⟨rfl, rfl, rfl, rfl, rfl, rfl⟩

/-- Witness for C6: releasing a drag of the `m2` slider at frame 123. -/
theorem C6_release_witness :
    InteractiveDoublePendulum.dragM2Session.dragging
      = some InteractiveDoublePendulum.Dragged.m2
    ∧ InteractiveDoublePendulum.ResolveOnRelease InteractiveDoublePendulum.solNil
        InteractiveDoublePendulum.dragM2Session :=
  ⟨rfl, C6_release_single_resolve InteractiveDoublePendulum.solNil
      InteractiveDoublePendulum.dragM2Session InteractiveDoublePendulum.Dragged.m2 rfl⟩

/-- C7: for every state the coordinate mappers put the pivot at the origin,
bob1 at `(l1·sin θ1, ±l1·cos θ1)` and bob2 at bob1 plus
`(l2·sin θ2, ±l2·cos θ2)`, and `atan2` on the two relative segment vectors
recovers the original angles modulo 2π. -/
theorem C7_coordinate_roundtrip :
    ∀ l1 l2 θ1 θ2 : ℝ, 0 < l1 → 0 < l2 → MapperSpec l1 l2 θ1 θ2 := by
  intro l1 l2 θ1 θ2 h1 h2
  have e1 : (InteractiveDoublePendulum.cartesian l1 l2 θ1 θ2).2.2.1
      - (InteractiveDoublePendulum.cartesian l1 l2 θ1 θ2).1 = l2 * Real.sin θ2 := by
    show l1 * Real.sin θ1 + l2 * Real.sin θ2 - l1 * Real.sin θ1 = l2 * Real.sin θ2
    ring
  have e2 : (InteractiveDoublePendulum.cartesian l1 l2 θ1 θ2).2.2.2
      - (InteractiveDoublePendulum.cartesian l1 l2 θ1 θ2).2.1 = l2 * Real.cos θ2 := by
    show l1 * Real.cos θ1 + l2 * Real.cos θ2 - l1 * Real.cos θ1 = l2 * Real.cos θ2
    ring
  have e3 : -(DoublePendulumAnim.animCartesian l1 l2 θ1 θ2).2.1 = l1 * Real.cos θ1 := by
    show -(-(l1 * Real.cos θ1)) = l1 * Real.cos θ1
    ring
  have e4 : (DoublePendulumAnim.animCartesian l1 l2 θ1 θ2).2.2.1
      - (DoublePendulumAnim.animCartesian l1 l2 θ1 θ2).1 = l2 * Real.sin θ2 := by
    show l1 * Real.sin θ1 + l2 * Real.sin θ2 - l1 * Real.sin θ1 = l2 * Real.sin θ2
    ring
  have e5 : -((DoublePendulumAnim.animCartesian l1 l2 θ1 θ2).2.2.2
      - (DoublePendulumAnim.animCartesian l1 l2 θ1 θ2).2.1) = l2 * Real.cos θ2 := by
    show -(-(l1 * Real.cos θ1) - l2 * Real.cos θ2 - -(l1 * Real.cos θ1)) = l2 * Real.cos θ2
    ring
  refine ⟨rfl, rfl, ⟨?_, ?_⟩, ?_, ?_⟩
  · exact atan2_recover l1 θ1 h1
  · unfold RoundTripUp at *
    rw [e1, e2]
    exact atan2_recover l2 θ2 h2
  · show ((atan2 (DoublePendulumAnim.animCartesian l1 l2 θ1 θ2).1
        (-(DoublePendulumAnim.animCartesian l1 l2 θ1 θ2).2.1) : ℝ) : Real.Angle)
      = (θ1 : Real.Angle)
    rw [e3]
    exact atan2_recover l1 θ1 h1
  · show ((atan2 ((DoublePendulumAnim.animCartesian l1 l2 θ1 θ2).2.2.1
        - (DoublePendulumAnim.animCartesian l1 l2 θ1 θ2).1)
      (-((DoublePendulumAnim.animCartesian l1 l2 θ1 θ2).2.2.2
        - (DoublePendulumAnim.animCartesian l1 l2 θ1 θ2).2.1)) : ℝ) : Real.Angle)
      = (θ2 : Real.Angle)
    rw [e4, e5]
    exact atan2_recover l2 θ2 h2

/-- Witness for C7 at `l1 = l2 = 1`, `θ1 = θ2 = 0`. -/
theorem C7_witness : (0 : ℝ) < 1 ∧ MapperSpec 1 1 0 0 :=
  ⟨one_pos, C7_coordinate_roundtrip 1 1 0 0 one_pos one_pos⟩

/-- C8: each single-pendulum derivative function returns `(ω, α)` with
`α = −(c/(m·l²))·ω − (g/l)·sin θ`, with `c = 0` for the undamped script. -/
theorem C8_single_pendulum_form :
    ∀ m l c t θ ω : ℝ, 0 < m → 0 < l → 0 ≤ c → SingleForm m l c t θ ω := by
  intro m l c t θ ω _hm _hl _hc
  refine ⟨?_, ?_, ?_⟩ <;>
    simp only [SimplePendulumScript.SimplePendulum, DampedPendulumScript.DampedPemdulum,
      InteractiveSimplePendulum.SimplePemdulum, Prod.mk.injEq] <;>
    exact ⟨trivial, by ring⟩

/-- Witness for C8 at `m = l = 1`, `c = 0`, state `(0, 0)`. -/
theorem C8_witness : (0 : ℝ) < 1 ∧ (0 : ℝ) ≤ 0 ∧ SingleForm 1 1 0 0 0 0 :=
  ⟨one_pos, le_refl 0, C8_single_pendulum_form 1 1 0 0 0 0 one_pos one_pos (le_refl 0)⟩

/-- C9: for positive masses and lengths the interactive script's denominator
factors as `m2·l1²·l2²·(m1 + m2·sin²(θ1−θ2))` and is strictly positive
(hence nonzero, so the two divisions never divide by zero); and the slider
clamps do keep every reachable session's masses and lengths at least
`0.01`. -/
theorem C9_denominator_positive :
    (∀ m1 m2 l1 l2 θ1 θ2 : ℝ, 0 < m1 → 0 < m2 → 0 < l1 → 0 < l2 →
      DenomFactored m1 m2 l1 l2 θ1 θ2)
    ∧ ∀ (sol : InteractiveDoublePendulum.Params → List (ℝ × ℝ))
        (s : InteractiveDoublePendulum.Session),
        InteractiveDoublePendulum.Reachable sol s →
        (0.01 : ℚ) ≤ s.params.m1 ∧ (0.01 : ℚ) ≤ s.params.m2
        ∧ (0.01 : ℚ) ≤ s.params.l1 ∧ (0.01 : ℚ) ≤ s.params.l2 := by
  constructor
  · intro m1 m2 l1 l2 θ1 θ2 hm1 hm2 hl1 hl2
    have hfac : InteractiveDoublePendulum.denominator m1 m2 l1 l2 θ1 θ2
        = m2 * l1 ^ 2 * l2 ^ 2 * (m1 + m2 * Real.sin (θ1 - θ2) ^ 2) := by
      unfold InteractiveDoublePendulum.denominator
      linear_combination (-(m2 ^ 2 * l1 ^ 2 * l2 ^ 2)) * Real.sin_sq_add_cos_sq (θ1 - θ2)
    have hpos : 0 < m2 * l1 ^ 2 * l2 ^ 2 * (m1 + m2 * Real.sin (θ1 - θ2) ^ 2) := by
      have hs : 0 ≤ Real.sin (θ1 - θ2) ^ 2 := sq_nonneg _
      have : 0 < m1 + m2 * Real.sin (θ1 - θ2) ^ 2 := by nlinarith
      exact mul_pos (mul_pos (mul_pos hm2 (pow_pos hl1 2)) (pow_pos hl2 2)) this
    refine ⟨hfac, ?_, ?_⟩
    · rw [hfac]; exact hpos
    · rw [hfac]; exact ne_of_gt hpos
  · intro sol s h
    have hr := InteractiveDoublePendulum.reachable_inRange sol s h
    obtain ⟨a1, _, a3, _, a5, _, a7, _⟩ := hr
    exact ⟨a1, a3, a5, a7⟩

/-- Witness for C9 at `m1 = m2 = l1 = l2 = 1`, `θ1 = θ2 = 0`. -/
theorem C9_witness : (0 : ℝ) < 1 ∧ DenomFactored 1 1 1 1 0 0 :=
  ⟨one_pos, C9_denominator_positive.1 1 1 1 1 0 0 one_pos one_pos one_pos one_pos⟩

/-- C10: in both interactive scripts every mouse-button-up event — whether or
not a drag was in progress — triggers one full re-solve with the current
parameters and resets the frame index to 0. -/
theorem C10_every_release_resolves :
    (∀ (sol : InteractiveDoublePendulum.Params → List (ℝ × ℝ))
      (s : InteractiveDoublePendulum.Session),
      InteractiveDoublePendulum.ResolveOnRelease sol s)
    ∧ ∀ (sol : InteractiveSimplePendulum.SParams → List ℝ)
        (s : InteractiveSimplePendulum.Session),
        InteractiveSimplePendulum.handleEvent sol s Event.mouseButtonUp
          = (InteractiveSimplePendulum.update_simulation sol { s with dragging := none }, 1)
        ∧ (InteractiveSimplePendulum.handleEvent sol s Event.mouseButtonUp).1.frame = 0
        ∧ (InteractiveSimplePendulum.handleEvent sol s Event.mouseButtonUp).1.params = s.params
        ∧ (InteractiveSimplePendulum.handleEvent sol s Event.mouseButtonUp).2 = 1 := by
  constructor
  · exact fun sol s => ⟨rfl, rfl, rfl, rfl, rfl, rfl⟩
  · exact fun sol s => ⟨rfl, rfl, rfl, rfl⟩

end Pendulum
